import Mathlib

/-!
Verification development for the Auto-Hide Backfaces Blender add-on
(src/__init__.py, the script variant, and src/extension/__init__.py, the
extension variant). The geometry scalars (float vectors in the source) are
modelled over the rationals; face indices are the positions of faces in the
bmesh face sequence, matching bmesh index semantics for a freshly obtained
edit-mesh. Mutation of bmesh faces and of the module-level globals
(_hidden_faces_cache, the timer handle, the scene enable flag) is modelled by
explicit state passing.
-/

/-- A 3-dimensional vector, modelling mathutils.Vector over the rationals. -/
structure Vec3 where
  x : ℚ
  y : ℚ
  z : ℚ
deriving DecidableEq, Repr

/-- Dot product of two vectors, modelling Vector.dot. -/
def Vec3.dot (a b : Vec3) : ℚ :=
  a.x * b.x + a.y * b.y + a.z * b.z

/-- A 3x3 matrix given by rows, modelling matrix_world.to_3x3() and the
rotation carried by a region quaternion (a rotation applied to a vector is
matrix application). -/
structure Mat3 where
  r0 : Vec3
  r1 : Vec3
  r2 : Vec3
deriving DecidableEq, Repr

/-- Matrix-vector application, modelling the @ operator of mathutils. -/
def Mat3.mulVec (m : Mat3) (v : Vec3) : Vec3 :=
  ⟨m.r0.dot v, m.r1.dot v, m.r2.dot v⟩

/-- A bmesh face: its local-space normal and its hide flag. The index of a
face is its position in the containing list. -/
structure Face where
  normal : Vec3
  hide : Bool
deriving DecidableEq, Repr

/-- A region of a screen area: its type string, whether it exposes a data
attribute (the hasattr check in get_view_direction), and the region_3d data
it carries, reduced to its view rotation. -/
structure Region where
  rtype : String
  hasData : Bool
  data : Option Mat3
deriving DecidableEq, Repr

/-- A screen area: its type string, its regions, and the region_3d of its
active space (the fallback used when a region lacks a data attribute). -/
structure Area where
  atype : String
  regions : List Region
  activeRegion3d : Option Mat3
deriving DecidableEq, Repr

/-- The read-only part of the Blender context that update_backfaces and the
view sampler consult: the current mode string and the screen areas. -/
structure EnvCtx where
  mode : String
  areas : List Area
deriving DecidableEq, Repr

/-- A scene object: name, type string, the 3x3 part of its world matrix, its
bmesh faces, and whether it appears in context.editable_objects. -/
structure Obj where
  name : String
  otype : String
  matrixWorld3 : Mat3
  faces : List Face
  editable : Bool
deriving DecidableEq, Repr

/-- The module-level _hidden_faces_cache: a dict from object name to the set
of face indices, modelled as an association list with unique keys (a Python
dict cannot hold a key twice). -/
abbrev Cache := List (String × List Nat)

/-- Dict lookup with default empty set: _hidden_faces_cache.get(name, set()). -/
def cacheGet (c : Cache) (k : String) : List Nat :=
  match c.find? (fun e => decide (e.1 = k)) with
  | some e => e.2
  | none => []

/-- Dict assignment: _hidden_faces_cache[name] = v (overwrite or append). -/
def cacheSet : Cache → String → List Nat → Cache
  | [], k, v => [(k, v)]
  | e :: es, k, v => if e.1 = k then (k, v) :: es else e :: cacheSet es k v

/-- Inner loop of get_view_direction over the regions of a VIEW_3D area:
for the first WINDOW region whose resolved rv3d is non-None, return the view
direction (view_rotation applied to (0, 0, -1)) together with the rv3d;
otherwise keep scanning. -/
def findViewInRegions (fallback : Option Mat3) : List Region → Option (Vec3 × Mat3)
  | [] => none
  | r :: rs =>
    if r.rtype = "WINDOW" then
      match (if r.hasData then r.data else fallback) with
      | some rv3d => some (rv3d.mulVec ⟨0, 0, -1⟩, rv3d)
      | none => findViewInRegions fallback rs
    else findViewInRegions fallback rs

/-- Outer loop of get_view_direction over context.screen.areas: only VIEW_3D
areas are considered; scanning continues until some region yields an rv3d. -/
def findViewInAreas : List Area → Option (Vec3 × Mat3)
  | [] => none
  | a :: rest =>
    if a.atype = "VIEW_3D" then
      match findViewInRegions a.activeRegion3d a.regions with
      | some res => some res
      | none => findViewInAreas rest
    else findViewInAreas rest

/-- get_view_direction(context): the view direction in world space for the
active 3D view, or none when no 3D viewport is resolvable (the source
returns the pair (None, None) in that case). -/
def getViewDirection (env : EnvCtx) : Option (Vec3 × Mat3) :=
  findViewInAreas env.areas

/-- The per-face sweep inside update_backfaces, iterating the faces of the
bmesh at consecutive indices: each face has its world normal computed, is
classified as backfacing when the dot with the view direction is strictly
positive, and its hide flag and the new_hidden set and changed flag are
updated exactly as in the source loop. Returns (mutated faces, new_hidden in
index order, changed). -/
def sweepFaces (normalMatrix : Mat3) (viewDir : Vec3) : List Face → Nat → List Face × List Nat × Bool
  | [], _ => ([], [], false)
  | face :: rest, i =>
    let r := sweepFaces normalMatrix viewDir rest (i + 1)
    let isBackface := decide (0 < (normalMatrix.mulVec face.normal).dot viewDir)
    if isBackface && !face.hide then
      ({ face with hide := true } :: r.1, i :: r.2.1, true)
    else if !isBackface && face.hide then
      ({ face with hide := false } :: r.1, r.2.1, true)
    else if isBackface then
      (face :: r.1, i :: r.2.1, r.2.2)
    else
      (face :: r.1, r.2.1, r.2.2)

/-- update_backfaces(obj, context): returns the object faces after the call,
the cache after the call is modelled by the second component, and the third
component records whether bmesh.update_edit_mesh was called (the changed
flag). Outside EDIT_MESH mode, or when no view direction is resolvable, the
call returns with nothing modified. When any face changed, the cache entry
for the object is overwritten with new_hidden. -/
def updateBackfaces (env : EnvCtx) (obj : Obj) (cache : Cache) : List Face × Cache × Bool :=
  if env.mode ≠ "EDIT_MESH" then (obj.faces, cache, false)
  else
    match getViewDirection env with
    | none => (obj.faces, cache, false)
    | some (viewDir, _rv3d) =>
      let normalMatrix := obj.matrixWorld3
      let _hiddenFaces := cacheGet cache obj.name
      let r := sweepFaces normalMatrix viewDir obj.faces 0
      if r.2.2 then (r.1, cacheSet cache obj.name r.2.1, true)
      else (r.1, cache, false)

/-- Set the hide flag of the face at one index to False, modelling the
assignment bm.faces[idx].hide = False. Positions past the end are untouched
(the caller guards the index, this fallback is never reached in-range). -/
def setHideFalse : List Face → Nat → List Face
  | [], _ => []
  | f :: fs, 0 => { f with hide := false } :: fs
  | f :: fs, n + 1 => f :: setHideFalse fs n

/-- The restoration loop of cancel for one object: for idx in indices, if
idx < len(bm.faces) then bm.faces[idx].hide = False. -/
def restoreFaces : List Nat → List Face → List Face
  | [], fs => fs
  | idx :: rest, fs =>
    restoreFaces rest (if idx < fs.length then setHideFalse fs idx else fs)

/-- context.scene.objects.get(name): first object with the given name. -/
def sceneGet (objs : List Obj) (n : String) : Option Obj :=
  objs.find? (fun o => decide (o.name = n))

/-- Replace the faces of the first object with the given name, modelling the
in-place mutation of the object found by scene.objects.get. -/
def sceneSetFaces : List Obj → String → List Face → List Obj
  | [], _, _ => []
  | o :: os, n, fs => if o.name = n then { o with faces := fs } :: os else o :: sceneSetFaces os n fs

/-- One iteration of the cancel loop over _hidden_faces_cache.items(): look
the object name up in the scene; if it resolves to a MESH object, run the
restoration loop on its faces; otherwise leave the scene untouched. -/
def restoreEntry (objs : List Obj) (e : String × List Nat) : List Obj :=
  match sceneGet objs e.1 with
  | some o => if o.otype = "MESH" then sceneSetFaces objs e.1 (restoreFaces e.2 o.faces) else objs
  | none => objs

/-- The return values of a Blender operator that this add-on uses. -/
inductive ModalResult
  | RUNNING_MODAL
  | CANCELLED
  | PASS_THROUGH
deriving DecidableEq, Repr

/-- The mutable state the add-on touches: the scene objects (bmesh faces),
the module-level hidden-face cache, the scene enable flag, and whether the
window-manager timer of the modal operator is registered. -/
structure SysState where
  scene : List Obj
  cache : Cache
  enabled : Bool
  timer : Bool
deriving DecidableEq, Repr

/-- VIEW3D_OT_auto_hide_backface_modal.cancel(context): remove the timer,
unhide every in-range cached face of every cached object that resolves to a
MESH object, and clear the cache. Identical in both source variants. -/
def cancelOp (s : SysState) : SysState :=
  { scene := s.cache.foldl restoreEntry s.scene
    cache := []
    enabled := s.enabled
    timer := false }

/-- VIEW3D_OT_auto_hide_backface_modal.execute(context): register the timer
and the modal handler, returning RUNNING_MODAL. -/
def executeOp (s : SysState) : SysState × ModalResult :=
  ({ s with timer := true }, ModalResult.RUNNING_MODAL)

/-- toggle_modal of the script variant (src/__init__.py, the update callback
of the enable property): when the flag is on, reject the activation outside
EDIT_MESH mode by resetting the flag (the recursive callback run triggered by
that assignment is a no-op since the flag is then off), otherwise invoke the
modal operator, whose default invocation runs execute. When the flag is off
the callback does nothing. -/
def toggleModal (mode : String) (s : SysState) : SysState :=
  if s.enabled then
    if mode ≠ "EDIT_MESH" then { s with enabled := false }
    else (executeOp s).1
  else s

/-- toggle_modal of the extension variant (src/extension/__init__.py): when
the flag is on the modal operator is invoked unconditionally; there is no
mode check. -/
def extToggleModal (s : SysState) : SysState :=
  if s.enabled then (executeOp s).1 else s

/-- The TIMER branch of modal: for obj in context.editable_objects, if
obj.type == MESH then update_backfaces(obj, context), threading the cache
through the iteration and writing each mutated face list back to its
object. -/
def tickObjs (env : EnvCtx) : List Obj → Cache → List Obj × Cache
  | [], cache => ([], cache)
  | o :: os, cache =>
    if o.editable then
      if o.otype = "MESH" then
        let r := updateBackfaces env o cache
        let rest := tickObjs env os r.2.1
        ({ o with faces := r.1 } :: rest.1, rest.2)
      else
        let rest := tickObjs env os cache
        (o :: rest.1, rest.2)
    else
      let rest := tickObjs env os cache
      (o :: rest.1, rest.2)

/-- modal of the script variant: when the enable flag is off, run cancel and
return CANCELLED; otherwise, when the mode is not EDIT_MESH, assign the
enable flag to False (which fires the property update callback toggle_modal)
and return CANCELLED without running cancel; otherwise process a TIMER event
and return PASS_THROUGH. -/
def modal (env : EnvCtx) (eventIsTimer : Bool) (s : SysState) : SysState × ModalResult :=
  if !s.enabled then (cancelOp s, ModalResult.CANCELLED)
  else if env.mode ≠ "EDIT_MESH" then
    (toggleModal env.mode { s with enabled := false }, ModalResult.CANCELLED)
  else if eventIsTimer then
    let r := tickObjs env s.scene s.cache
    ({ s with scene := r.1, cache := r.2 }, ModalResult.PASS_THROUGH)
  else (s, ModalResult.PASS_THROUGH)

/-- modal of the extension variant: as the script variant but with no
edit-mode check at all. -/
def extModal (env : EnvCtx) (eventIsTimer : Bool) (s : SysState) : SysState × ModalResult :=
  if !s.enabled then (cancelOp s, ModalResult.CANCELLED)
  else if eventIsTimer then
    let r := tickObjs env s.scene s.cache
    ({ s with scene := r.1, cache := r.2 }, ModalResult.PASS_THROUGH)
  else (s, ModalResult.PASS_THROUGH)

/-- The effect of one update on a single face: the hide flag is set to the
backface test of its world normal against the view direction; nothing else
changes. -/
def hideUpd (nm : Mat3) (v : Vec3) (f : Face) : Face :=
  { f with hide := decide (0 < (nm.mulVec f.normal).dot v) }

/-- The indices (starting from a given offset) of the faces classified as
backfacing; this is the value of new_hidden after the sweep. -/
def backfaceIdxs (nm : Mat3) (v : Vec3) : List Face → Nat → List Nat
  | [], _ => []
  | f :: fs, i =>
    if decide (0 < (nm.mulVec f.normal).dot v) then i :: backfaceIdxs nm v fs (i + 1)
    else backfaceIdxs nm v fs (i + 1)

/-- The indices (starting from a given offset) of the faces whose hide flag
is currently set. -/
def hiddenIdxs : List Face → Nat → List Nat
  | [], _ => []
  | f :: fs, i => if f.hide then i :: hiddenIdxs fs (i + 1) else hiddenIdxs fs (i + 1)

/-- The face at each position in the result. -/
def unhideFace (f : Face) : Face := { f with hide := false }

/-- The effect of one cancel-loop iteration on one object, pointwise. -/
def entryApply (e : String × List Nat) (o : Obj) : Obj :=
  if o.name = e.1 ∧ o.otype = "MESH" then { o with faces := restoreFaces e.2 o.faces } else o

/-- The combined effect of the whole cancel loop on one object, pointwise:
the restoration of its entry when the cache holds one and it is a MESH
object, the identity otherwise. -/
def cacheApply (cache : Cache) (o : Obj) : Obj :=
  match cache.find? (fun x => decide (x.1 = o.name)) with
  | some e => if o.otype = "MESH" then { o with faces := restoreFaces e.2 o.faces } else o
  | none => o

/-! ### Concrete inputs for the witnesses and counterexamples -/

/-- The identity rotation. -/
def idMat : Mat3 := ⟨⟨1, 0, 0⟩, ⟨0, 1, 0⟩, ⟨0, 0, 1⟩⟩

/-- An edit-mode context whose single VIEW_3D area yields the identity view
rotation, so the sampled view direction is (0, 0, -1). -/
def wEnvEdit : EnvCtx :=
  { mode := "EDIT_MESH"
    areas := [{ atype := "VIEW_3D"
                regions := [{ rtype := "WINDOW", hasData := true, data := some idMat }]
                activeRegion3d := none }] }

/-- An object-mode context (no 3D view needed by the claims using it). -/
def wEnvObject : EnvCtx := { mode := "OBJECT", areas := [] }

/-- An edit-mode context with no screen areas: no viewport is resolvable. -/
def wEnvNoView : EnvCtx := { mode := "EDIT_MESH", areas := [] }

/-- The 4-face mesh of the spec scenario: normals (0,0,1), (0,0,-1),
(1,0,0), (-1,0,0), all faces initially visible, identity world matrix. -/
def wObj4 : Obj :=
  { name := "Cube", otype := "MESH", matrixWorld3 := idMat
    faces := [{ normal := ⟨0, 0, 1⟩, hide := false },
              { normal := ⟨0, 0, -1⟩, hide := false },
              { normal := ⟨1, 0, 0⟩, hide := false },
              { normal := ⟨-1, 0, 0⟩, hide := false }]
    editable := true }

/-- A face hidden with a backfacing normal for the view (0, 0, -1). -/
def wHiddenFace : Face := { normal := ⟨0, 0, -1⟩, hide := true }

/-- A one-face MESH object whose only face is hidden. -/
def wCubeObj : Obj :=
  { name := "Cube", otype := "MESH", matrixWorld3 := idMat
    faces := [wHiddenFace], editable := true }

/-- A second MESH object, not referenced by the caches used below. -/
def wOtherObj : Obj :=
  { name := "Other", otype := "MESH", matrixWorld3 := idMat
    faces := [wHiddenFace], editable := true }

/-- Active state: enabled, timer registered, one hidden face recorded. -/
def wStateEdit : SysState :=
  { scene := [wCubeObj], cache := [("Cube", [0])], enabled := true, timer := true }

/-- The same state right after the user toggled the enable flag off. -/
def wStateOff : SysState :=
  { scene := [wCubeObj], cache := [("Cube", [0])], enabled := false, timer := true }

/-- A minimal state in which the user just toggled the enable flag on. -/
def wStateOn : SysState :=
  { scene := [], cache := [], enabled := true, timer := false }

/-- A disabled state whose cache holds an in-range and a stale index. -/
def wStateRestore : SysState :=
  { scene := [wCubeObj, wOtherObj], cache := [("Cube", [0, 5])]
    enabled := false, timer := true }

/-- One visible frontfacing face, with a stale cache entry claiming index 0
is hidden: update changes nothing and leaves the wrong entry in place. -/
def wObjStale : Obj :=
  { name := "Cube", otype := "MESH", matrixWorld3 := idMat
    faces := [{ normal := ⟨0, 0, 1⟩, hide := false }], editable := true }

/-- Two backfacing faces for the view (0, 0, -1): face 0 already hidden by
the user before any update, face 1 visible. -/
def wObjUser : Obj :=
  { name := "Plane", otype := "MESH", matrixWorld3 := idMat
    faces := [{ normal := ⟨0, 0, -1⟩, hide := true },
              { normal := ⟨0, 0, -1⟩, hide := false }], editable := true }

/-- A non-MESH scene object. -/
def wLampObj : Obj :=
  { name := "Lamp", otype := "LIGHT", matrixWorld3 := idMat
    faces := [], editable := false }

/-- A state whose cache references a name absent from the scene and a name
resolving to a non-MESH object. -/
def wStateGhost : SysState :=
  { scene := [wLampObj], cache := [("Ghost", [0]), ("Lamp", [3])]
    enabled := true, timer := true }

/-- One hidden face used by the stale-index witness. -/
def wFacesOne : List Face := [{ normal := ⟨0, 0, 1⟩, hide := true }]

/-! ### Characterization of the per-face sweep -/

lemma sweepFaces_fst (nm : Mat3) (v : Vec3) (fs : List Face) : ∀ i : Nat,
    (sweepFaces nm v fs i).1 = fs.map (hideUpd nm v) := by
  induction fs with
  | nil => intro i; rfl
  | cons f fs ih =>
    intro i
    obtain ⟨fn, fh⟩ := f
    simp only [sweepFaces, List.map]
    cases hb : decide (0 < (nm.mulVec fn).dot v) <;> cases fh <;>
      simp [hideUpd, hb, ih]

lemma sweepFaces_hidden (nm : Mat3) (v : Vec3) (fs : List Face) : ∀ i : Nat,
    (sweepFaces nm v fs i).2.1 = backfaceIdxs nm v fs i := by
  induction fs with
  | nil => intro i; rfl
  | cons f fs ih =>
    intro i
    simp only [sweepFaces, backfaceIdxs]
    cases hb : decide (0 < (nm.mulVec f.normal).dot v) <;> cases hh : f.hide <;>
      simp [hb, hh, ih]

lemma sweepFaces_changed (nm : Mat3) (v : Vec3) (fs : List Face) : ∀ i : Nat,
    (sweepFaces nm v fs i).2.2
      = fs.any (fun f => f.hide != decide (0 < (nm.mulVec f.normal).dot v)) := by
  induction fs with
  | nil => intro i; rfl
  | cons f fs ih =>
    intro i
    simp only [sweepFaces, List.any_cons]
    cases hb : decide (0 < (nm.mulVec f.normal).dot v) <;> cases hh : f.hide <;>
      simp [hb, hh, ih]

lemma hiddenIdxs_map_hideUpd (nm : Mat3) (v : Vec3) (fs : List Face) : ∀ i : Nat,
    hiddenIdxs (fs.map (hideUpd nm v)) i = backfaceIdxs nm v fs i := by
  induction fs with
  | nil => intro i; rfl
  | cons f fs ih =>
    intro i
    simp only [List.map, hiddenIdxs, backfaceIdxs, hideUpd]
    by_cases hb : (0 < (nm.mulVec f.normal).dot v) <;> simp [hb, ih]

lemma hideUpd_idem (nm : Mat3) (v : Vec3) (f : Face) :
    hideUpd nm v (hideUpd nm v f) = hideUpd nm v f := rfl

lemma any_mismatch_map_hideUpd (nm : Mat3) (v : Vec3) (fs : List Face) :
    (fs.map (hideUpd nm v)).any
        (fun f => f.hide != decide (0 < (nm.mulVec f.normal).dot v)) = false := by
  induction fs with
  | nil => rfl
  | cons f fs ih => simp only [List.map, List.any_cons, ih, hideUpd, Bool.or_false]; simp

/-- Full characterization of update_backfaces in EDIT_MESH mode with a
resolvable view direction: the faces come out with hide equal to the
backface test, the commit flag is the mismatch test, and the cache entry is
overwritten with the backface indices exactly when some face changed. -/
lemma updateBackfaces_eq (env : EnvCtx) (obj : Obj) (cache : Cache) (v : Vec3) (rv : Mat3)
    (hmode : env.mode = "EDIT_MESH") (hview : getViewDirection env = some (v, rv)) :
    updateBackfaces env obj cache =
      (obj.faces.map (hideUpd obj.matrixWorld3 v),
       if obj.faces.any
            (fun f => f.hide != decide (0 < (obj.matrixWorld3.mulVec f.normal).dot v))
         then cacheSet cache obj.name (backfaceIdxs obj.matrixWorld3 v obj.faces 0)
         else cache,
       obj.faces.any
         (fun f => f.hide != decide (0 < (obj.matrixWorld3.mulVec f.normal).dot v))) := by
  simp only [updateBackfaces, hmode, hview, ne_eq, not_true_eq_false, if_false]
  rw [sweepFaces_fst, sweepFaces_hidden, sweepFaces_changed]
  cases hany : obj.faces.any
      (fun f => f.hide != decide (0 < (obj.matrixWorld3.mulVec f.normal).dot v)) <;>
    simp [hany]

/-- Outside EDIT_MESH mode, update_backfaces is the identity on the faces
and the cache and commits nothing. -/
lemma updateBackfaces_not_edit (env : EnvCtx) (obj : Obj) (cache : Cache)
    (hmode : env.mode ≠ "EDIT_MESH") :
    updateBackfaces env obj cache = (obj.faces, cache, false) := by
  simp only [updateBackfaces, hmode, ne_eq, not_false_eq_true, if_true]

/-- With no resolvable view direction, update_backfaces is the identity on
the faces and the cache and commits nothing. -/
lemma updateBackfaces_no_view (env : EnvCtx) (obj : Obj) (cache : Cache)
    (hview : getViewDirection env = none) :
    updateBackfaces env obj cache = (obj.faces, cache, false) := by
  by_cases hmode : env.mode = "EDIT_MESH"
  · simp only [updateBackfaces, hmode, hview, ne_eq, not_true_eq_false, if_false]
  · exact updateBackfaces_not_edit env obj cache hmode

/-! ### Characterization of the restoration loop of cancel -/

lemma setHideFalse_get? (fs : List Face) : ∀ (idx j : Nat),
    (setHideFalse fs idx)[j]? = fs[j]?.map (fun f => if j = idx then unhideFace f else f) := by
  induction fs with
  | nil => intro idx j; simp [setHideFalse]
  | cons f fs ih =>
    intro idx j
    cases idx with
    | zero =>
      cases j with
      | zero => simp [setHideFalse, unhideFace]
      | succ m =>
        simp only [setHideFalse, List.getElem?_cons_succ, Nat.succ_ne_zero, if_false]
        cases fs[m]? <;> simp
    | succ n =>
      cases j with
      | zero => simp [setHideFalse]
      | succ m => simp [setHideFalse, ih n m, Nat.succ_inj]

lemma restoreStep_get? (fs : List Face) (idx j : Nat) :
    (if idx < fs.length then setHideFalse fs idx else fs)[j]?
      = fs[j]?.map (fun f => if j = idx then unhideFace f else f) := by
  split
  · exact setHideFalse_get? fs idx j
  · rename_i hlen
    by_cases hj : j = idx
    · subst hj
      rw [List.getElem?_eq_none (Nat.le_of_not_lt hlen)]
      rfl
    · cases hfj : fs[j]? <;> simp [hj]

lemma restoreFaces_get? (ids : List Nat) : ∀ (fs : List Face) (j : Nat),
    (restoreFaces ids fs)[j]? = fs[j]?.map (fun f => if j ∈ ids then unhideFace f else f) := by
  induction ids with
  | nil =>
    intro fs j
    show fs[j]? = fs[j]?.map fun f => if j ∈ ([] : List Nat) then unhideFace f else f
    cases fs[j]? <;> simp
  | cons idx rest ih =>
    intro fs j
    show (restoreFaces rest (if idx < fs.length then setHideFalse fs idx else fs))[j]? = _
    rw [ih, restoreStep_get?]
    cases hfj : fs[j]? with
    | none => simp
    | some f =>
      by_cases hj : j = idx <;> by_cases hr : j ∈ rest <;>
        simp [hj, hr, List.mem_cons, unhideFace]

lemma setHideFalse_length (fs : List Face) : ∀ idx : Nat,
    (setHideFalse fs idx).length = fs.length := by
  induction fs with
  | nil => intro idx; rfl
  | cons f fs ih =>
    intro idx
    cases idx with
    | zero => rfl
    | succ n => simp [setHideFalse, ih n]

lemma restoreFaces_length (ids : List Nat) : ∀ fs : List Face,
    (restoreFaces ids fs).length = fs.length := by
  induction ids with
  | nil => intro fs; rfl
  | cons idx rest ih =>
    intro fs
    simp only [restoreFaces]
    rw [ih]
    split
    · exact setHideFalse_length fs idx
    · rfl

/-! ### Characterization of the cancel sweep over the cache -/

/-- With duplicate-free mapped keys, two list members with the same key are
the same member. -/
lemma eq_of_nodup_key {α β : Type} (f : α → β) (l : List α)
    (hnd : (l.map f).Nodup) (x y : α) (hx : x ∈ l) (hy : y ∈ l) (hf : f x = f y) :
    x = y :=
  List.inj_on_of_nodup_map hnd hx hy hf

/-- With duplicate-free mapped keys, find? at the key of a member returns
that member. -/
lemma find?_key_of_mem {α β : Type} [DecidableEq β] (f : α → β) (l : List α)
    (hnd : (l.map f).Nodup) (x : α) (hx : x ∈ l) :
    l.find? (fun a => decide (f a = f x)) = some x := by
  induction l with
  | nil => cases hx
  | cons a l ih =>
    rcases List.mem_cons.mp hx with hxa | hxl
    · subst hxa
      simp [List.find?]
    · have hne : ¬ f a = f x := by
        intro hfa
        have : f x ∈ l.map f := List.mem_map_of_mem f hxl
        rw [← hfa] at this
        exact (List.nodup_cons.mp hnd).1 this
      have hstep : (a :: l).find? (fun b => decide (f b = f x))
          = l.find? (fun b => decide (f b = f x)) := by
        simp [List.find?, hne]
      rw [hstep]
      exact ih (List.nodup_cons.mp hnd).2 hxl

lemma sceneSetFaces_get? (objs : List Obj) (n : String) (fs : List Face)
    (hnd : (objs.map Obj.name).Nodup) : ∀ k : Nat,
    (sceneSetFaces objs n fs)[k]?
      = objs[k]?.map (fun o => if o.name = n then { o with faces := fs } else o) := by
  induction objs with
  | nil => intro k; simp [sceneSetFaces]
  | cons o os ih =>
    intro k
    by_cases ho : o.name = n
    · simp only [sceneSetFaces, ho, if_true]
      cases k with
      | zero => simp [ho]
      | succ m =>
        simp only [List.getElem?_cons_succ]
        cases hm : os[m]? with
        | none => simp
        | some o' =>
          have ho' : ¬ o'.name = n := by
            intro he
            have : o'.name ∈ os.map Obj.name :=
              List.mem_map_of_mem Obj.name (List.getElem?_mem hm)
            rw [he, ← ho] at this
            exact (List.nodup_cons.mp hnd).1 this
          simp [ho']
    · simp only [sceneSetFaces, ho, if_false]
      cases k with
      | zero => simp [ho]
      | succ m =>
        simp only [List.getElem?_cons_succ]
        exact ih (List.nodup_cons.mp hnd).2 m


lemma restoreEntry_get? (objs : List Obj) (e : String × List Nat)
    (hnd : (objs.map Obj.name).Nodup) : ∀ k : Nat,
    (restoreEntry objs e)[k]? = objs[k]?.map (entryApply e) := by
  intro k
  unfold restoreEntry sceneGet entryApply
  cases hfind : objs.find? (fun o => decide (o.name = e.1)) with
  | none =>
    have hall := List.find?_eq_none.mp hfind
    cases hk : objs[k]? with
    | none => simp
    | some o =>
      have : ¬ o.name = e.1 := by
        have := hall o (List.getElem?_mem hk)
        simpa using this
      simp [this]
  | some o0 =>
    have ho0name : o0.name = e.1 := by
      have := List.find?_some hfind
      simpa using this
    have ho0mem : o0 ∈ objs := List.mem_of_find?_eq_some hfind
    by_cases hmesh : o0.otype = "MESH"
    · simp only [hmesh, if_true]
      rw [sceneSetFaces_get? objs e.1 (restoreFaces e.2 o0.faces) hnd k]
      cases hk : objs[k]? with
      | none => rfl
      | some o =>
        by_cases ho : o.name = e.1
        · have : o = o0 :=
            eq_of_nodup_key Obj.name objs hnd o o0 (List.getElem?_mem hk) ho0mem
              (by rw [ho, ho0name])
          subst this
          simp [ho, hmesh]
        · simp [ho]
    · simp only [hmesh, if_false]
      cases hk : objs[k]? with
      | none => simp
      | some o =>
        by_cases ho : o.name = e.1
        · have : o = o0 :=
            eq_of_nodup_key Obj.name objs hnd o o0 (List.getElem?_mem hk) ho0mem
              (by rw [ho, ho0name])
          subst this
          simp [hmesh]
        · simp [ho]

lemma entryApply_name (e : String × List Nat) (o : Obj) :
    (entryApply e o).name = o.name := by
  unfold entryApply; split <;> rfl

lemma entryApply_otype (e : String × List Nat) (o : Obj) :
    (entryApply e o).otype = o.otype := by
  unfold entryApply; split <;> rfl

lemma restoreEntry_names (objs : List Obj) (e : String × List Nat)
    (hnd : (objs.map Obj.name).Nodup) :
    (restoreEntry objs e).map Obj.name = objs.map Obj.name := by
  apply List.ext_getElem?
  intro k
  rw [List.getElem?_map, List.getElem?_map, restoreEntry_get? objs e hnd k]
  cases objs[k]? with
  | none => rfl
  | some o => simp [entryApply_name]

lemma cacheApply_cons (e : String × List Nat) (rest : Cache) (o : Obj)
    (hkeyhead : e.1 ∉ rest.map Prod.fst) :
    cacheApply rest (entryApply e o) = cacheApply (e :: rest) o := by
  unfold cacheApply
  rw [entryApply_name, entryApply_otype]
  by_cases hname : o.name = e.1
  · have hrest : rest.find? (fun x => decide (x.1 = o.name)) = none := by
      apply List.find?_eq_none.mpr
      intro x hxmem
      simp only [decide_eq_true_eq]
      intro hx1
      have hx : x.1 ∈ rest.map Prod.fst := List.mem_map_of_mem Prod.fst hxmem
      rw [hx1, hname] at hx
      exact hkeyhead hx
    have hhead : (e :: rest).find? (fun x => decide (x.1 = o.name)) = some e := by
      apply List.find?_cons_of_pos
      simp [hname]
    rw [hrest, hhead]
    show entryApply e o
        = if o.otype = "MESH" then { o with faces := restoreFaces e.2 o.faces } else o
    by_cases hmesh : o.otype = "MESH"
    · rw [if_pos hmesh]
      unfold entryApply
      rw [if_pos ⟨hname, hmesh⟩]
    · rw [if_neg hmesh]
      unfold entryApply
      rw [if_neg (fun h => hmesh h.2)]
  · have heo : entryApply e o = o := by
      unfold entryApply
      rw [if_neg (fun h => hname h.1)]
    have hhead : (e :: rest).find? (fun x => decide (x.1 = o.name))
        = rest.find? (fun x => decide (x.1 = o.name)) := by
      apply List.find?_cons_of_neg
      simp only [decide_eq_true_eq]
      intro h
      exact hname h.symm
    rw [heo, hhead]

lemma foldRestore_get? (cache : Cache) : ∀ (objs : List Obj),
    (objs.map Obj.name).Nodup → (cache.map Prod.fst).Nodup → ∀ k : Nat,
    (cache.foldl restoreEntry objs)[k]? = objs[k]?.map (cacheApply cache) := by
  induction cache with
  | nil =>
    intro objs _ _ k
    simp only [List.foldl_nil]
    cases objs[k]? with
    | none => rfl
    | some o => rfl
  | cons e rest ih =>
    intro objs hnd hkeys k
    have hnd1 : ((restoreEntry objs e).map Obj.name).Nodup := by
      rw [restoreEntry_names objs e hnd]; exact hnd
    have hkeys1 : (rest.map Prod.fst).Nodup := (List.nodup_cons.mp hkeys).2
    have hkeyhead : e.1 ∉ rest.map Prod.fst := (List.nodup_cons.mp hkeys).1
    rw [List.foldl_cons, ih (restoreEntry objs e) hnd1 hkeys1 k,
      restoreEntry_get? objs e hnd k]
    cases hk : objs[k]? with
    | none => rfl
    | some o =>
      show some (cacheApply rest (entryApply e o)) = some (cacheApply (e :: rest) o)
      rw [cacheApply_cons e rest o hkeyhead]

/-- Pointwise description of the scene after cancel. -/
lemma cancelOp_scene_get? (s : SysState)
    (hnd : (s.scene.map Obj.name).Nodup) (hkeys : (s.cache.map Prod.fst).Nodup)
    (k : Nat) :
    (cancelOp s).scene[k]? = s.scene[k]?.map (cacheApply s.cache) :=
  foldRestore_get? s.cache s.scene hnd hkeys k

lemma cacheGet_cacheSet (c : Cache) (k : String) (v : List Nat) :
    cacheGet (cacheSet c k v) k = v := by
  induction c with
  | nil => simp [cacheSet, cacheGet, List.find?]
  | cons e es ih =>
    by_cases he : e.1 = k
    · simp [cacheSet, he, cacheGet, List.find?]
    · simp only [cacheSet, he, if_false]
      unfold cacheGet
      rw [List.find?_cons_of_neg _ (by simp [he])]
      exact ih

lemma map_hideUpd_idem (nm : Mat3) (v : Vec3) (fs : List Face) :
    (fs.map (hideUpd nm v)).map (hideUpd nm v) = fs.map (hideUpd nm v) := by
  rw [List.map_map]
  congr 1

/-! ### C1 -/

/-- C1: after one update_backfaces call in EDIT_MESH mode with a resolvable
view direction v, every face's hidden flag equals the strict test
dot(world normal, v) > 0, where the world normal is the local normal
transformed by the 3x3 part of the object's world matrix; a face whose dot
is exactly 0 therefore comes out visible. -/
theorem update_backfaces_hidden_iff_dot_pos (env : EnvCtx) (obj : Obj) (cache : Cache)
    (v : Vec3) (rv : Mat3)
    (hmode : env.mode = "EDIT_MESH") (hview : getViewDirection env = some (v, rv))
    (i : Nat) (hi : i < obj.faces.length) :
    ((updateBackfaces env obj cache).1[i]?.map Face.hide)
      = some (decide (0 < (obj.matrixWorld3.mulVec obj.faces[i].normal).dot v)) := by
  have he := updateBackfaces_eq env obj cache v rv hmode hview
  have h1 : (updateBackfaces env obj cache).1
      = obj.faces.map (hideUpd obj.matrixWorld3 v) := by rw [he]
  rw [h1, List.getElem?_map, List.getElem?_eq_getElem hi]
  rfl

/-! ### C7 -/

/-- C7: update_backfaces is idempotent: re-running it on the faces and cache
produced by a previous run, with the same context (hence unchanged geometry,
transform and view direction), changes no face, performs no commit, and
leaves the cache unchanged. -/
theorem update_backfaces_idempotent (env : EnvCtx) (obj : Obj) (cache : Cache) :
    updateBackfaces env { obj with faces := (updateBackfaces env obj cache).1 }
        (updateBackfaces env obj cache).2.1
      = ((updateBackfaces env obj cache).1, (updateBackfaces env obj cache).2.1, false) := by
  by_cases hmode : env.mode = "EDIT_MESH"
  · cases hview : getViewDirection env with
    | none =>
      rw [updateBackfaces_no_view env obj cache hview,
        updateBackfaces_no_view env _ _ hview]
    | some p =>
      obtain ⟨v, rv⟩ := p
      have he := updateBackfaces_eq env obj cache v rv hmode hview
      have h1 : (updateBackfaces env obj cache).1
          = obj.faces.map (hideUpd obj.matrixWorld3 v) := by rw [he]
      have he2 := updateBackfaces_eq env
        { obj with faces := (updateBackfaces env obj cache).1 }
        (updateBackfaces env obj cache).2.1 v rv hmode hview
      rw [he2]
      show ((updateBackfaces env obj cache).1.map (hideUpd obj.matrixWorld3 v),
        if (updateBackfaces env obj cache).1.any
            (fun f => f.hide != decide (0 < (obj.matrixWorld3.mulVec f.normal).dot v))
          then cacheSet (updateBackfaces env obj cache).2.1 obj.name
            (backfaceIdxs obj.matrixWorld3 v (updateBackfaces env obj cache).1 0)
          else (updateBackfaces env obj cache).2.1,
        (updateBackfaces env obj cache).1.any
          (fun f => f.hide != decide (0 < (obj.matrixWorld3.mulVec f.normal).dot v)))
        = ((updateBackfaces env obj cache).1, (updateBackfaces env obj cache).2.1, false)
      rw [h1, map_hideUpd_idem, any_mismatch_map_hideUpd]
      simp
  · rw [updateBackfaces_not_edit env obj cache hmode,
      updateBackfaces_not_edit env _ _ hmode]

/-! ### C6 -/

/-- C6 amended: after an update_backfaces call in which at least one face
flag changed (so a commit occurred), the cache entry for the object is
exactly the set of face indices whose hidden flag is now set — the
backfacing faces — regardless of whether they were hidden by this system or
already hidden beforehand by other means; after a call in which no flag
changed, the cache is left exactly as it was, even when its entry no longer
matches the face flags. -/
theorem cache_tracks_hidden_on_commit (env : EnvCtx) (obj : Obj) (cache : Cache)
    (v : Vec3) (rv : Mat3)
    (hmode : env.mode = "EDIT_MESH") (hview : getViewDirection env = some (v, rv)) :
    ((updateBackfaces env obj cache).2.2 = true →
      cacheGet (updateBackfaces env obj cache).2.1 obj.name
        = hiddenIdxs (updateBackfaces env obj cache).1 0)
    ∧ ((updateBackfaces env obj cache).2.2 = false →
      (updateBackfaces env obj cache).2.1 = cache) := by
  have he := updateBackfaces_eq env obj cache v rv hmode hview
  have h1 : (updateBackfaces env obj cache).1
      = obj.faces.map (hideUpd obj.matrixWorld3 v) := by rw [he]
  have h2 : (updateBackfaces env obj cache).2.1
      = if obj.faces.any
            (fun f => f.hide != decide (0 < (obj.matrixWorld3.mulVec f.normal).dot v))
          then cacheSet cache obj.name (backfaceIdxs obj.matrixWorld3 v obj.faces 0)
          else cache := by rw [he]
  have h3 : (updateBackfaces env obj cache).2.2
      = obj.faces.any
          (fun f => f.hide != decide (0 < (obj.matrixWorld3.mulVec f.normal).dot v)) := by
    rw [he]
  constructor
  · intro hch
    rw [h3] at hch
    rw [h2, if_pos hch, cacheGet_cacheSet, h1, hiddenIdxs_map_hideUpd]
  · intro hch
    rw [h3] at hch
    rw [h2, if_neg (by simp [hch])]

/-! ### C9 -/

/-- C9: when no 3D viewport is resolvable get_view_direction reports
unavailable by returning none rather than failing (in particular when no
area of the screen is a VIEW_3D area), and an update_backfaces call that
sees no view direction returns with the faces and the cache untouched and
without committing — the tick is skipped silently. -/
theorem no_viewport_skips_update :
    (∀ env : EnvCtx, (∀ a ∈ env.areas, a.atype ≠ "VIEW_3D") →
        getViewDirection env = none)
    ∧ (∀ (env : EnvCtx) (obj : Obj) (cache : Cache), getViewDirection env = none →
        updateBackfaces env obj cache = (obj.faces, cache, false)) := by
  constructor
  · intro env h
    unfold getViewDirection
    have hgen : ∀ l : List Area, (∀ a ∈ l, a.atype ≠ "VIEW_3D") →
        findViewInAreas l = none := by
      intro l
      induction l with
      | nil => intro _; rfl
      | cons a rest ih =>
        intro hall
        unfold findViewInAreas
        rw [if_neg (hall a (List.mem_cons_self a rest))]
        exact ih (fun b hb => hall b (List.mem_cons_of_mem a hb))
    exact hgen env.areas h
  · exact fun env obj cache hv => updateBackfaces_no_view env obj cache hv

/-! ### The restore part of cancel, shared by the disable claims -/

/-- For every cache entry whose name resolves (at position k) to a MESH
object, cancel leaves that object with all in-range cached indices unhidden
and all other faces untouched. -/
lemma cancelOp_unhides (s : SysState)
    (hnd : (s.scene.map Obj.name).Nodup) (hkeys : (s.cache.map Prod.fst).Nodup) :
    ∀ e ∈ s.cache, ∀ (k : Nat) (o : Obj), s.scene[k]? = some o →
      o.name = e.1 → o.otype = "MESH" →
      ∃ o2, (cancelOp s).scene[k]? = some o2
        ∧ (∀ idx ∈ e.2, ∀ f, o2.faces[idx]? = some f → f.hide = false)
        ∧ (∀ j : Nat, j ∉ e.2 → o2.faces[j]? = o.faces[j]?) := by
  intro e he k o hk hname hmesh
  have hg := cancelOp_scene_get? s hnd hkeys k
  rw [hk] at hg
  have hfind : s.cache.find? (fun x => decide (x.1 = o.name)) = some e := by
    rw [hname]
    exact find?_key_of_mem Prod.fst s.cache hkeys e he
  have hca : cacheApply s.cache o = { o with faces := restoreFaces e.2 o.faces } := by
    unfold cacheApply
    rw [hfind]
    show (if o.otype = "MESH" then { o with faces := restoreFaces e.2 o.faces } else o) = _
    rw [if_pos hmesh]
  refine ⟨{ o with faces := restoreFaces e.2 o.faces }, ?_, ?_, ?_⟩
  · rw [hg]
    show some (cacheApply s.cache o) = _
    rw [hca]
  · intro idx hidx f hf
    have hf2 : (restoreFaces e.2 o.faces)[idx]? = some f := hf
    rw [restoreFaces_get? e.2 o.faces idx] at hf2
    cases hoi : o.faces[idx]? with
    | none => rw [hoi] at hf2; simp at hf2
    | some f0 =>
      rw [hoi] at hf2
      have : unhideFace f0 = f := by
        have h3 : some (if idx ∈ e.2 then unhideFace f0 else f0) = some f := hf2
        rw [if_pos hidx] at h3
        exact Option.some.inj h3
      rw [← this]
      rfl
  · intro j hj
    have : (restoreFaces e.2 o.faces)[j]? = o.faces[j]? := by
      rw [restoreFaces_get? e.2 o.faces j]
      cases o.faces[j]? with
      | none => rfl
      | some f0 => simp [hj]
    exact this

/-! ### C3 -/

/-- C3: after cancel runs, for every entry of the pre-disable cache whose
name resolves to a MESH object of the scene, every in-range cached face
index has its hidden flag cleared, every face of that object not recorded in
the entry keeps the state it had before, and every object whose name is
recorded in no cache entry is left entirely untouched. -/
theorem cancel_restores_cached_faces (s : SysState)
    (hnd : (s.scene.map Obj.name).Nodup) (hkeys : (s.cache.map Prod.fst).Nodup) :
    (∀ e ∈ s.cache, ∀ (k : Nat) (o : Obj), s.scene[k]? = some o →
        o.name = e.1 → o.otype = "MESH" →
        ∃ o2, (cancelOp s).scene[k]? = some o2
          ∧ (∀ idx ∈ e.2, ∀ f, o2.faces[idx]? = some f → f.hide = false)
          ∧ (∀ j : Nat, j ∉ e.2 → o2.faces[j]? = o.faces[j]?))
    ∧ (∀ (k : Nat) (o : Obj), s.scene[k]? = some o →
        (∀ e ∈ s.cache, e.1 ≠ o.name) → (cancelOp s).scene[k]? = some o) := by
  constructor
  · exact cancelOp_unhides s hnd hkeys
  · intro k o hk hnone
    have hg := cancelOp_scene_get? s hnd hkeys k
    rw [hk] at hg
    have hfind : s.cache.find? (fun x => decide (x.1 = o.name)) = none := by
      apply List.find?_eq_none.mpr
      intro x hx
      simp only [decide_eq_true_eq]
      exact hnone x hx
    have hca : cacheApply s.cache o = o := by
      unfold cacheApply
      rw [hfind]
    rw [hg]
    show some (cacheApply s.cache o) = _
    rw [hca]

/-! ### C2 -/

/-- C2 amended: of the three Active-to-Disabled transitions, the two that go
through cancel do clean up — when the modal loop observes a cleared enable
flag (the user toggled it off, or a cancellation already reset it) it runs
cancel, which removes the timer, unhides every in-range cached face of every
resolvable MESH object and empties the cache; but the transition taken when
the editing context leaves EDIT_MESH mode merely clears the enable flag and
stops, leaving the hidden faces hidden, the cache uncleared and the timer
registered. -/
theorem disable_transitions_cleanup :
    (∀ (env : EnvCtx) (ev : Bool) (s : SysState),
        s.enabled = false →
        (s.scene.map Obj.name).Nodup → (s.cache.map Prod.fst).Nodup →
        (modal env ev s).2 = ModalResult.CANCELLED
        ∧ (modal env ev s).1.cache = []
        ∧ (modal env ev s).1.timer = false
        ∧ ∀ e ∈ s.cache, ∀ (k : Nat) (o : Obj), s.scene[k]? = some o →
            o.name = e.1 → o.otype = "MESH" →
            ∃ o2, (modal env ev s).1.scene[k]? = some o2
              ∧ ∀ idx ∈ e.2, ∀ f, o2.faces[idx]? = some f → f.hide = false)
    ∧ (∀ (env : EnvCtx) (ev : Bool) (s : SysState),
        s.enabled = true → env.mode ≠ "EDIT_MESH" →
        modal env ev s = ({ s with enabled := false }, ModalResult.CANCELLED)) := by
  constructor
  · intro env ev s hen hnd hkeys
    have hm : modal env ev s = (cancelOp s, ModalResult.CANCELLED) := by
      unfold modal
      rw [hen]
      rfl
    rw [hm]
    refine ⟨rfl, rfl, rfl, ?_⟩
    intro e he k o hk hname hmesh
    obtain ⟨o2, ho2, hunhide, _⟩ := cancelOp_unhides s hnd hkeys e he k o hk hname hmesh
    exact ⟨o2, ho2, hunhide⟩
  · intro env ev s hen hmode
    have ht : toggleModal env.mode { s with enabled := false }
        = { s with enabled := false } := by
      unfold toggleModal
      rfl
    unfold modal
    rw [hen, ht]
    rw [if_neg (by simp), if_pos hmode]

/-! ### C4 -/

/-- C4 amended: toggling the enable flag off does not itself run the disable
transition — the property update callback toggle_modal does nothing at all
when the flag is off; the full disable (timer removal, unhiding of cached
faces, cache clearing) happens only at the next modal event, when the modal
loop observes the cleared flag and calls cancel. -/
theorem toggle_off_noop_modal_cancels :
    (∀ (mode : String) (s : SysState), s.enabled = false → toggleModal mode s = s)
    ∧ (∀ (env : EnvCtx) (ev : Bool) (s : SysState), s.enabled = false →
        modal env ev s = (cancelOp s, ModalResult.CANCELLED)
        ∧ (cancelOp s).timer = false ∧ (cancelOp s).cache = []) := by
  constructor
  · intro mode s hen
    unfold toggleModal
    rw [hen]
    rfl
  · intro env ev s hen
    refine ⟨?_, rfl, rfl⟩
    unfold modal
    rw [hen]
    rfl

/-! ### C5 -/

/-- C5 amended: in the script variant, requesting activation outside
EDIT_MESH mode is rejected — the enable flag is reset to off and the timer
registration is not touched (so no timer is registered); in the extension
variant the toggle callback starts the modal operator unconditionally, so
the timer is registered and the flag stays on even outside edit mode. -/
theorem activation_gate_by_variant :
    (∀ (mode : String) (s : SysState), s.enabled = true → mode ≠ "EDIT_MESH" →
        (toggleModal mode s).enabled = false ∧ (toggleModal mode s).timer = s.timer)
    ∧ (∀ s : SysState, s.enabled = true → extToggleModal s = { s with timer := true }) := by
  constructor
  · intro mode s hen hmode
    have h : toggleModal mode s = { s with enabled := false } := by
      unfold toggleModal
      rw [hen]
      show (if mode ≠ "EDIT_MESH" then { s with enabled := false } else (executeOp s).1) = _
      rw [if_pos hmode]
    rw [h]
    exact ⟨rfl, rfl⟩
  · intro s hen
    unfold extToggleModal
    rw [if_pos hen]
    rfl

/-! ### C10 -/

/-- C10: cancel empties the cache in every case; a cache entry whose name
resolves to no scene object, or to an object that is not a MESH, is dropped
with the scene untouched — no face restoration is attempted for it. -/
theorem cancel_clears_cache_always :
    (∀ s : SysState, (cancelOp s).cache = [])
    ∧ (∀ (objs : List Obj) (e : String × List Nat),
        objs.find? (fun o => decide (o.name = e.1)) = none →
        restoreEntry objs e = objs)
    ∧ (∀ (objs : List Obj) (e : String × List Nat) (o : Obj),
        objs.find? (fun o => decide (o.name = e.1)) = some o → o.otype ≠ "MESH" →
        restoreEntry objs e = objs) := by
  refine ⟨fun s => rfl, ?_, ?_⟩
  · intro objs e h
    unfold restoreEntry sceneGet
    rw [h]
  · intro objs e o h hmesh
    unfold restoreEntry sceneGet
    rw [h]
    show (if o.otype = "MESH" then sceneSetFaces objs e.1 (restoreFaces e.2 o.faces)
        else objs) = objs
    rw [if_neg hmesh]

/-! ### C8 -/

/-- C8: for every cached index list and every face list, even when the list
holds a stale index i at or past the current face count, the restoration
loop completes (it is a total function), preserves the face count, unhides
every in-range cached index, and ignores the stale indices: dropping every
out-of-range index from the list yields the same result. -/
theorem restore_skips_stale_indices (ids : List Nat) (fs : List Face)
    (i : Nat) (_hi : i ∈ ids) (_hstale : fs.length ≤ i) :
    (restoreFaces ids fs).length = fs.length
    ∧ (∀ idx ∈ ids, ∀ f, (restoreFaces ids fs)[idx]? = some f → f.hide = false)
    ∧ restoreFaces ids fs
        = restoreFaces (ids.filter (fun j => decide (j < fs.length))) fs := by
  refine ⟨restoreFaces_length ids fs, ?_, ?_⟩
  · intro idx hidx f hf
    rw [restoreFaces_get? ids fs idx] at hf
    cases hoi : fs[idx]? with
    | none => rw [hoi] at hf; simp at hf
    | some f0 =>
      rw [hoi] at hf
      have h3 : some (if idx ∈ ids then unhideFace f0 else f0) = some f := hf
      rw [if_pos hidx] at h3
      rw [← Option.some.inj h3]
      rfl
  · apply List.ext_getElem?
    intro j
    rw [restoreFaces_get? ids fs j, restoreFaces_get? _ fs j]
    cases hfj : fs[j]? with
    | none => rfl
    | some f0 =>
      have hjlen : j < fs.length := by
        by_contra hc
        rw [List.getElem?_eq_none (Nat.le_of_not_lt hc)] at hfj
        simp at hfj
      simp [List.mem_filter, hjlen]

section
attribute [local semireducible] Rat.add Rat.mul Rat.sub

/-- C1 witness: the spec scenario. In wEnvEdit the sampled view direction is
(0, 0, -1); after one update of the 4-face mesh, face 1 (normal (0,0,-1),
dot 1) is hidden and faces 0, 2, 3 (dots -1, 0, 0) are visible, so the
boundary faces with dot exactly 0 stay visible. -/
theorem update_backfaces_hidden_iff_dot_pos_witness :
    wEnvEdit.mode = "EDIT_MESH"
    ∧ getViewDirection wEnvEdit = some (⟨0, 0, -1⟩, idMat)
    ∧ 1 < wObj4.faces.length
    ∧ ((updateBackfaces wEnvEdit wObj4 []).1[1]?.map Face.hide)
        = some (decide (0 < (wObj4.matrixWorld3.mulVec wObj4.faces[1].normal).dot ⟨0, 0, -1⟩))
    ∧ (updateBackfaces wEnvEdit wObj4 []).1.map Face.hide = [false, true, false, false] :=
  ⟨rfl, by decide, by decide,
    update_backfaces_hidden_iff_dot_pos wEnvEdit wObj4 [] ⟨0, 0, -1⟩ idMat rfl
      (by decide) 1 (by decide),
    by decide⟩

/-- C2 counterexample: with the feature active on a mesh with one hidden
cached face, a modal event in OBJECT mode takes the leave-edit-mode
transition: the operator stops (CANCELLED) with the flag cleared, yet the
face stays hidden, the cache keeps its entry, and the timer is never
removed — so this Active-to-Disabled transition does not unhide the cached
faces, contradicting the claim. -/
theorem modal_mode_exit_leaves_face_hidden :
    (modal wEnvObject true wStateEdit).2 = ModalResult.CANCELLED
    ∧ (modal wEnvObject true wStateEdit).1.enabled = false
    ∧ (modal wEnvObject true wStateEdit).1.cache = [("Cube", [0])]
    ∧ ((modal wEnvObject true wStateEdit).1.scene.map (fun o => o.faces.map Face.hide))
        = [[true]]
    ∧ (modal wEnvObject true wStateEdit).1.timer = true := by
  decide

/-- C2 witness: at a disabled state the modal event runs cancel, clearing
the cache and timer; at an enabled state in OBJECT mode the modal event only
clears the flag. -/
theorem disable_transitions_cleanup_witness :
    wStateOff.enabled = false
    ∧ (modal wEnvEdit true wStateOff).2 = ModalResult.CANCELLED
    ∧ (modal wEnvEdit true wStateOff).1.cache = []
    ∧ (modal wEnvEdit true wStateOff).1.timer = false
    ∧ wStateEdit.enabled = true
    ∧ wEnvObject.mode ≠ "EDIT_MESH"
    ∧ modal wEnvObject true wStateEdit
        = ({ wStateEdit with enabled := false }, ModalResult.CANCELLED) :=
  ⟨rfl,
    ((disable_transitions_cleanup).1 wEnvEdit true wStateOff rfl (by decide) (by decide)).1,
    ((disable_transitions_cleanup).1 wEnvEdit true wStateOff rfl (by decide) (by decide)).2.1,
    ((disable_transitions_cleanup).1 wEnvEdit true wStateOff rfl (by decide) (by decide)).2.2.1,
    rfl, by decide,
    (disable_transitions_cleanup).2 wEnvObject true wStateEdit rfl (by decide)⟩

/-- C3 witness: cancel on a state caching indices 0 (in range) and 5
(stale) for the Cube unhides the Cube face and leaves the uncached Other
object untouched. -/
theorem cancel_restores_cached_faces_witness :
    ("Cube", [0, 5]) ∈ wStateRestore.cache
    ∧ wStateRestore.scene[0]? = some wCubeObj
    ∧ (∃ o2, (cancelOp wStateRestore).scene[0]? = some o2
        ∧ (∀ idx ∈ [0, 5], ∀ f, o2.faces[idx]? = some f → f.hide = false)
        ∧ (∀ j : Nat, j ∉ [0, 5] → o2.faces[j]? = wCubeObj.faces[j]?))
    ∧ (cancelOp wStateRestore).scene[1]? = some wOtherObj :=
  ⟨by decide, rfl,
    (cancel_restores_cached_faces wStateRestore (by decide) (by decide)).1
      ("Cube", [0, 5]) (by decide) 0 wCubeObj rfl rfl rfl,
    (cancel_restores_cached_faces wStateRestore (by decide) (by decide)).2
      1 wOtherObj rfl (by decide)⟩

/-- C4 counterexample: with the flag just toggled off (the update callback
observes enabled = False), toggle_modal does nothing: the timer stays
registered, the cache keeps its entry and the cached face stays hidden — the
full disable transition is not triggered synchronously by the toggle. -/
theorem toggle_off_does_not_disable :
    toggleModal "EDIT_MESH" wStateOff = wStateOff
    ∧ wStateOff.timer = true
    ∧ wStateOff.cache = [("Cube", [0])]
    ∧ (wStateOff.scene.map fun o => o.faces.map Face.hide) = [[true]] := by
  decide

/-- C4 witness: the toggle callback is a no-op at a disabled state, and the
next modal event runs cancel. -/
theorem toggle_off_noop_modal_cancels_witness :
    wStateOff.enabled = false
    ∧ toggleModal "EDIT_MESH" wStateOff = wStateOff
    ∧ modal wEnvEdit true wStateOff = (cancelOp wStateOff, ModalResult.CANCELLED) :=
  ⟨rfl, (toggle_off_noop_modal_cancels).1 "EDIT_MESH" wStateOff rfl,
    ((toggle_off_noop_modal_cancels).2 wEnvEdit true wStateOff rfl).1⟩

/-- C5 counterexample: in the extension variant, requesting activation
(enabled = True) is never rejected: the toggle callback registers the timer
and leaves the flag on, with no mode check at all — so activating outside
edit mode does not end with the flag false and no timer. -/
theorem ext_activation_not_rejected :
    extToggleModal wStateOn = { wStateOn with timer := true }
    ∧ (extToggleModal wStateOn).enabled = true
    ∧ (extToggleModal wStateOn).timer = true := by
  decide

/-- C5 witness: the script variant rejects activation in OBJECT mode (flag
reset, timer untouched and hence unregistered), while the extension variant
registers the timer. -/
theorem activation_gate_by_variant_witness :
    wStateOn.enabled = true
    ∧ ("OBJECT" : String) ≠ "EDIT_MESH"
    ∧ (toggleModal "OBJECT" wStateOn).enabled = false
    ∧ (toggleModal "OBJECT" wStateOn).timer = false
    ∧ extToggleModal wStateOn = { wStateOn with timer := true } :=
  ⟨rfl, by decide,
    ((activation_gate_by_variant).1 "OBJECT" wStateOn rfl (by decide)).1,
    ((activation_gate_by_variant).1 "OBJECT" wStateOn rfl (by decide)).2.trans rfl,
    (activation_gate_by_variant).2 wStateOn rfl⟩

/-- C6 counterexample, two scenarios. First: a stale cache entry claims face
0 of the Cube is hidden while the face is visible and frontfacing; the
update changes no flag, so the entry survives although the system has
nothing hidden — the cache is not kept in sync on that update. Second: face
0 of the Plane was hidden by the user before any update; the update hides
face 1 and commits, and the new entry [0, 1] also records the user-hidden
face 0 — not only the faces this system itself set to hidden. -/
theorem cache_entry_not_exactly_system_hidden :
    ((updateBackfaces wEnvEdit wObjStale [("Cube", [0])]).2.1 = [("Cube", [0])]
      ∧ (updateBackfaces wEnvEdit wObjStale [("Cube", [0])]).1.map Face.hide = [false]
      ∧ (updateBackfaces wEnvEdit wObjStale [("Cube", [0])]).2.2 = false)
    ∧ (wObjUser.faces.map Face.hide = [true, false]
      ∧ (updateBackfaces wEnvEdit wObjUser []).2.1 = [("Plane", [0, 1])]
      ∧ (updateBackfaces wEnvEdit wObjUser []).1.map Face.hide = [true, true]) := by
  decide

/-- C6 witness: on the 4-face scenario the update commits, and the cache
entry afterwards is [1] — exactly the indices of the faces now hidden. -/
theorem cache_tracks_hidden_on_commit_witness :
    wEnvEdit.mode = "EDIT_MESH"
    ∧ getViewDirection wEnvEdit = some (⟨0, 0, -1⟩, idMat)
    ∧ ((updateBackfaces wEnvEdit wObj4 []).2.2 = true →
        cacheGet (updateBackfaces wEnvEdit wObj4 []).2.1 wObj4.name
          = hiddenIdxs (updateBackfaces wEnvEdit wObj4 []).1 0)
    ∧ (updateBackfaces wEnvEdit wObj4 []).2.2 = true
    ∧ cacheGet (updateBackfaces wEnvEdit wObj4 []).2.1 wObj4.name = [1] :=
  ⟨rfl, by decide,
    (cache_tracks_hidden_on_commit wEnvEdit wObj4 [] ⟨0, 0, -1⟩ idMat rfl (by decide)).1,
    by decide, by decide⟩

/-- C8 witness: restoring the list [5, 0] on a single hidden face ignores
the stale index 5 and unhides face 0. -/
theorem restore_skips_stale_indices_witness :
    (5 ∈ [5, 0]) ∧ wFacesOne.length ≤ 5
    ∧ ((restoreFaces [5, 0] wFacesOne).length = wFacesOne.length
      ∧ (∀ idx ∈ [5, 0], ∀ f, (restoreFaces [5, 0] wFacesOne)[idx]? = some f → f.hide = false)
      ∧ restoreFaces [5, 0] wFacesOne
          = restoreFaces (([5, 0] : List Nat).filter (fun j => decide (j < wFacesOne.length))) wFacesOne)
    ∧ (restoreFaces [5, 0] wFacesOne).map Face.hide = [false] :=
  ⟨by decide, by decide,
    restore_skips_stale_indices [5, 0] wFacesOne 5 (by decide) (by decide),
    by decide⟩

/-- C9 witness: with no screen areas the view sampler reports unavailable
and the update leaves the faces and cache untouched with no commit. -/
theorem no_viewport_skips_update_witness :
    getViewDirection wEnvNoView = none
    ∧ updateBackfaces wEnvNoView wObj4 [] = (wObj4.faces, [], false) :=
  ⟨(no_viewport_skips_update).1 wEnvNoView (by decide),
    (no_viewport_skips_update).2 wEnvNoView wObj4 [] rfl⟩

/-- C10 witness: cancel empties the cache of a state whose entries name an
absent object and a non-MESH object, and neither entry changes the scene. -/
theorem cancel_clears_cache_always_witness :
    (cancelOp wStateGhost).cache = []
    ∧ restoreEntry wStateGhost.scene ("Ghost", [0]) = wStateGhost.scene
    ∧ restoreEntry wStateGhost.scene ("Lamp", [3]) = wStateGhost.scene
    ∧ wLampObj.otype ≠ "MESH" :=
  ⟨(cancel_clears_cache_always).1 wStateGhost,
    (cancel_clears_cache_always).2.1 wStateGhost.scene ("Ghost", [0]) (by decide),
    (cancel_clears_cache_always).2.2 wStateGhost.scene ("Lamp", [3]) wLampObj
      (by decide) (by decide),
    by decide⟩

end
